import Mathlib

/-!
# CalorieCanvas: derivations, animation driver and canvas layout of `src/App.jsx`

A shallow embedding of the component `CalorieCanvasApp`.  The canvas context is
modelled by the values the drawing routines pass to it.

Two readings of the arithmetic are given.  In the first, JavaScript numbers are exact
rationals and decimal literals of the source (`3.6`, `0.58`, `0.02`) are the rationals
they denote; it carries the properties of the formulas themselves.  In the second
(names ending in `D`), every operation is followed by the binary64 rounding of a
JavaScript number operation; it carries the properties that depend on the last bit of
a result: the values of the default scenario and the last frames of the animation.
-/

namespace CalorieCanvas

/-! ## Input state (the five `useState` cells) -/

/-- The five numeric input fields held by the component. -/
structure Inputs where
  weight : ℚ
  cal100 : ℚ
  fat100 : ℚ
  carb100 : ℚ
  prot100 : ℚ
deriving DecidableEq

/-- Initial values of the five `useState` cells. -/
def defaultInputs : Inputs :=
  { weight := 150, cal100 := 165, fat100 := 36 / 10, carb100 := 0, prot100 := 31 }

/-- An entry of the static `presets` array. -/
structure Preset where
  name : String
  cal : ℚ
  fat : ℚ
  carb : ℚ
  prot : ℚ
deriving DecidableEq

/-- The `presets` array, in source order. -/
def presets : List Preset :=
  [ { name := "Corn cakes", cal := 400, fat := 18 / 10, carb := 64, prot := 74 / 10 },
    { name := "Avocado", cal := 160, fat := 15, carb := 9, prot := 2 },
    { name := "Banana", cal := 89, fat := 3 / 10, carb := 23, prot := 11 / 10 },
    { name := "Olive oil (100g)", cal := 884, fat := 100, carb := 0, prot := 0 } ]

/-- The `onClick` handler of a preset button: `setCal100(p.cal); setFat100(p.fat);
setCarb100(p.carb); setProt100(p.prot)`. -/
def onClick (p : Preset) (s : Inputs) : Inputs :=
  { s with cal100 := p.cal, fat100 := p.fat, carb100 := p.carb, prot100 := p.prot }

/-! ## Derived calculations -/

/-- Source: `gramsFrom = (per100) => (Number(per100) * Number(weight)) / 100`. -/
def gramsFrom (s : Inputs) (per100 : ℚ) : ℚ := (per100 * s.weight) / 100

def fatGrams (s : Inputs) : ℚ := gramsFrom s s.fat100
def carbGrams (s : Inputs) : ℚ := gramsFrom s s.carb100
def protGrams (s : Inputs) : ℚ := gramsFrom s s.prot100

/-- Source: `caloriesDeclared = (Number(cal100) * Number(weight)) / 100`. -/
def caloriesDeclared (s : Inputs) : ℚ := (s.cal100 * s.weight) / 100

def calFromFat (s : Inputs) : ℚ := fatGrams s * 9
def calFromCarb (s : Inputs) : ℚ := carbGrams s * 4
def calFromProt (s : Inputs) : ℚ := protGrams s * 4

def caloriesFromMacros (s : Inputs) : ℚ := calFromFat s + calFromCarb s + calFromProt s

/-- Source: `pct = (v) => (caloriesFromMacros > 0 ? (v / caloriesFromMacros) * 100 : 0)`. -/
def pct (s : Inputs) (v : ℚ) : ℚ :=
  if caloriesFromMacros s > 0 then (v / caloriesFromMacros s) * 100 else 0

def fatPct (s : Inputs) : ℚ := pct s (calFromFat s)
def carbPct (s : Inputs) : ℚ := pct s (calFromCarb s)
def protPct (s : Inputs) : ℚ := pct s (calFromProt s)

/-- The number denoted by `x.toFixed(1)`: the sign is split off, and the magnitude
is rounded to the nearest tenth, the larger candidate being taken on a tie. -/
def toFixed1 (x : ℚ) : ℚ :=
  if x < 0 then -((⌊(-x) * 10 + 1 / 2⌋ : ℤ) : ℚ) / 10 else ((⌊x * 10 + 1 / 2⌋ : ℤ) : ℚ) / 10

/-! ## Animation driver -/

/-- What one call of `step` leaves behind: the value of the closure variable
`start`, the eased progress passed to `draw`, and whether another frame was
requested. -/
structure StepResult where
  start : ℚ
  elapsed : ℚ
  eased : ℚ
  rescheduled : Bool
deriving DecidableEq

/-- Source: `step(ts)`.  The closure variable `start` is `null` (here `none`) before
the first frame; `!start` also holds for a stored `0`. -/
def step (start : Option ℚ) (ts : ℚ) : StepResult :=
  let start1 : ℚ :=
    match start with
    | none => ts
    | some v => if v = 0 then ts else v
  let elapsed := ts - start1
  let duration : ℚ := 600
  let p := min 1 (elapsed / duration)
  let eased := 1 - (1 - p) ^ 3
  { start := start1, elapsed := elapsed, eased := eased, rescheduled := decide (p < 1) }

/-! ## Canvas drawing -/

/-- The value of `Math.PI`, the double nearest to π, as an exact rational. -/
def PI : ℚ := 884279719003555 / 281474976710656

/-- One stroked `ctx.arc(cx, cy, radius, startAngle, endAngle)` call together with
the stroke style and line width in force. -/
structure ArcStroke where
  strokeStyle : String
  lineWidth : ℚ
  cx : ℚ
  cy : ℚ
  radius : ℚ
  startAngle : ℚ
  endAngle : ℚ
deriving DecidableEq

/-- The `colors` array of `drawDonut` (Fat, Carbs, Protein). -/
def colors : List String := ["#ff9f1c", "#06b6d4", "#7c3aed"]

/-- The `slices` array of `drawDonut`. -/
def slices (s : Inputs) : List ℚ := [fatPct s, carbPct s, protPct s]

/-- The `for` loop of `drawDonut`, threading the mutable `startAngle`. -/
def donutLoop (cx cy radius thickness progress : ℚ) : ℚ → List (String × ℚ) → List ArcStroke
  | _, [] => []
  | startAngle, (color, slice) :: rest =>
    let slicePct := max 0 (slice / 100)
    let endAngle := startAngle + slicePct * PI * 2 * progress
    { strokeStyle := color, lineWidth := thickness - 6, cx := cx, cy := cy, radius := radius,
      startAngle := startAngle + 2 / 100, endAngle := endAngle - 2 / 100 } ::
      donutLoop cx cy radius thickness progress (startAngle + slicePct * PI * 2) rest

/-- The background ring stroked first by `drawDonut`. -/
def backgroundRing (x y size thickness : ℚ) : ArcStroke :=
  { strokeStyle := "rgba(255,255,255,0.06)", lineWidth := thickness,
    cx := x + size / 2, cy := y + size / 2, radius := size / 2 - 6,
    startAngle := 0, endAngle := PI * 2 }

/-- Source: `drawDonut(ctx, x, y, size, thickness, progress)`; the result lists the
stroked arcs in the order they are issued. -/
def drawDonut (s : Inputs) (x y size thickness progress : ℚ) : List ArcStroke :=
  let cx := x + size / 2
  let cy := y + size / 2
  let radius := size / 2 - 6
  backgroundRing x y size thickness ::
    (if caloriesFromMacros s ≤ 0 then []
     else donutLoop cx cy radius thickness progress (-PI / 2) (List.zip colors (slices s)))

/-- What `drawBar` puts on the canvas: the track rectangle, the fill rectangle (both
as the arguments given to `roundRect`), and the intermediate fill widths. -/
structure BarDraw where
  label : String
  value : ℚ
  trackX : ℚ
  trackY : ℚ
  trackW : ℚ
  trackH : ℚ
  unflooredFill : ℚ
  fillWidth : ℚ
  fillStyle : String
  fillX : ℚ
  fillY : ℚ
  fillW : ℚ
  fillH : ℚ
deriving DecidableEq

/-- Source: `drawBar(ctx, x, y, w, label, value, max, progress)` (the live definition,
not the commented-out one). -/
def drawBar (x y w : ℚ) (label : String) (value max progress : ℚ) : BarDraw :=
  let barH : ℚ := 16
  let labelWidth : ℚ := 50
  let valueWidth : ℚ := 50
  let barX := x + labelWidth
  let barW := w - labelWidth - valueWidth
  let inner := Min.min ((value / max) * barW * progress) barW
  let fillWidth := Max.max 2 inner
  { label := label, value := value,
    trackX := barX, trackY := y + 2, trackW := barW, trackH := barH,
    unflooredFill := inner, fillWidth := fillWidth,
    fillStyle := if label = "Fat" then "#ff9f1c" else if label = "Carbs" then "#06b6d4"
      else "#7c3aed",
    fillX := barX + 2, fillY := y + 4, fillW := fillWidth - 4, fillH := barH - 4 }

/-- The layout constants computed by `draw` from the canvas size. -/
structure Layout where
  cardX : ℚ
  cardY : ℚ
  cardW : ℚ
  cardH : ℚ
  leftWidth : ℚ
  rightWidth : ℚ
  visualsX : ℚ
  visualsY : ℚ
  donutSize : ℚ
  donutThickness : ℚ
  barX : ℚ
  barY : ℚ
  barW : ℚ
deriving DecidableEq

/-- The layout part of `draw`, for a canvas of CSS size `w` by `h`. -/
def layout (w h : ℚ) : Layout :=
  let padding : ℚ := 18
  let cardX := padding
  let cardY := padding
  let cardW := w - padding * 2
  let cardH := h - padding * 2
  let leftWidth := min 420 (max 180 (cardW * (58 / 100)))
  let rightWidth := max 140 (cardW - leftWidth - 36)
  let visualsX := cardX + leftWidth + 20
  let visualsY := cardY + 60
  let donutSize := min 160 (max 80 (rightWidth - 12))
  let donutThickness := max 28 (min 48 (donutSize * (28 / 100)))
  { cardX := cardX, cardY := cardY, cardW := cardW, cardH := cardH,
    leftWidth := leftWidth, rightWidth := rightWidth,
    visualsX := visualsX, visualsY := visualsY,
    donutSize := donutSize, donutThickness := donutThickness,
    barX := visualsX + 6, barY := visualsY + donutSize + 12, barW := rightWidth - 12 }

/-- Source: `resizeCanvas`, the CSS width given to the canvas. -/
def cssWidth (rectWidth : ℚ) : ℚ := max 320 rectWidth

/-- What `draw(progress)` computes and puts on the canvas, as far as the numeric
report is concerned. -/
structure Frame where
  layout : Layout
  diff : ℚ
  diffPct : ℚ
  diffStyle : String
  fatPctText : ℚ
  carbPctText : ℚ
  protPctText : ℚ
  diffText : ℚ
  diffPctText : ℚ
  donut : List ArcStroke
  maxGram : ℚ
  bars : List BarDraw

/-- Source: `draw(progress)` on a canvas whose bounding rectangle is `w` by `h`. -/
def draw (s : Inputs) (w h progress : ℚ) : Frame :=
  let l := layout w h
  let diff := caloriesFromMacros s - caloriesDeclared s
  let diffPct := if caloriesDeclared s ≠ 0 then (diff / caloriesDeclared s) * 100 else 0
  let maxGram := max (max (max (fatGrams s) (carbGrams s)) (protGrams s)) 1
  { layout := l,
    diff := diff,
    diffPct := diffPct,
    diffStyle := if diff > 0 then "#ffbaba" else "#d2ffd6",
    fatPctText := toFixed1 (fatPct s),
    carbPctText := toFixed1 (carbPct s),
    protPctText := toFixed1 (protPct s),
    diffText := toFixed1 diff,
    diffPctText := toFixed1 diffPct,
    donut := drawDonut s (l.visualsX + (l.rightWidth - l.donutSize) / 2) l.visualsY
      l.donutSize l.donutThickness progress,
    maxGram := maxGram,
    bars := [ drawBar l.barX (l.barY + 0) l.barW "Fat" (fatGrams s) maxGram progress,
              drawBar l.barX (l.barY + 28) l.barW "Carbs" (carbGrams s) maxGram progress,
              drawBar l.barX (l.barY + 56) l.barW "Protein" (protGrams s) maxGram progress ] }

/-! ## Inputs and reference descriptions used in the statements -/

/-- The Avocado composition at a weight of 100 g. -/
def avocado100 : Inputs :=
  { weight := 100, cal100 := 160, fat100 := 15, carb100 := 9, prot100 := 2 }

/-- An angle given in degrees, in the radians used by the canvas. -/
def deg (d : ℚ) : ℚ := d * PI / 180

/-- The colour, nominal start angle and nominal sweep of a stroked arc, that is, with
the inset of 0.02 rad at either end taken back out. -/
def nominal (a : ArcStroke) : String × ℚ × ℚ :=
  (a.strokeStyle, a.startAngle - 2 / 100, (a.endAngle + 2 / 100) - (a.startAngle - 2 / 100))

/-- The three coloured arcs in the words of the specification: start at -90 degrees
plus the earlier full sweeps `pct/100 * 360`, sweep `pct/100 * 360 * progress`. -/
def specDonutArcs (s : Inputs) (progress : ℚ) : List (String × ℚ × ℚ) :=
  [ ("#ff9f1c", deg (-90), fatPct s / 100 * deg 360 * progress),
    ("#06b6d4", deg (-90) + fatPct s / 100 * deg 360, carbPct s / 100 * deg 360 * progress),
    ("#7c3aed", deg (-90) + fatPct s / 100 * deg 360 + carbPct s / 100 * deg 360,
      protPct s / 100 * deg 360 * progress) ]

/-- An input with a negative fat field and a positive macro calorie total. -/
def negativeFat : Inputs :=
  { weight := 100, cal100 := 0, fat100 := -1, carb100 := 0, prot100 := 10 }

/-- The largest of the three gram values. -/
def largestGram (s : Inputs) : ℚ := max (max (fatGrams s) (carbGrams s)) (protGrams s)

/-- The default composition at a weight of 1 g. -/
def tinyPortion : Inputs := { defaultInputs with weight := 1 }

/-! ## Double-precision evaluation

The properties that depend on how a result is rounded are stated over the model
below, in which every arithmetic operation of the source is followed by the IEEE 754
binary64 rounding (round to nearest, ties to even) that a JavaScript number
operation performs.  Doubles are represented by the rationals they denote; overflow to
`Infinity` is outside the model. -/

/-- Round to the nearest integer, ties to the even one. -/
def roundHalfEven (x : ℚ) : ℤ :=
  if x - ⌊x⌋ < 1 / 2 then ⌊x⌋
  else if 1 / 2 < x - ⌊x⌋ then ⌊x⌋ + 1
  else if ⌊x⌋ % 2 = 0 then ⌊x⌋ else ⌊x⌋ + 1

/-- The double nearest to `q`: 53 significant bits, exponent of the last bit not below
-1074 (subnormals), ties to the even significand. -/
def roundDouble (q : ℚ) : ℚ :=
  if q = 0 then 0
  else
    let e : ℤ := max (Int.log 2 |q| - 52) (-1074)
    (if q < 0 then -1 else 1) * ((roundHalfEven (|q| / (2 : ℚ) ^ e) : ℤ) : ℚ) * (2 : ℚ) ^ e

/-- The input fields as JavaScript numbers: each decimal value is read as the nearest
double. -/
def toDoubles (s : Inputs) : Inputs :=
  { weight := roundDouble s.weight, cal100 := roundDouble s.cal100,
    fat100 := roundDouble s.fat100, carb100 := roundDouble s.carb100,
    prot100 := roundDouble s.prot100 }

/-- Source: `gramsFrom`, in double arithmetic. -/
def gramsFromD (s : Inputs) (per100 : ℚ) : ℚ :=
  roundDouble (roundDouble (per100 * s.weight) / 100)

def fatGramsD (s : Inputs) : ℚ := gramsFromD s s.fat100
def carbGramsD (s : Inputs) : ℚ := gramsFromD s s.carb100
def protGramsD (s : Inputs) : ℚ := gramsFromD s s.prot100

/-- Source: `caloriesDeclared`, in double arithmetic. -/
def caloriesDeclaredD (s : Inputs) : ℚ :=
  roundDouble (roundDouble (s.cal100 * s.weight) / 100)

def calFromFatD (s : Inputs) : ℚ := roundDouble (fatGramsD s * 9)
def calFromCarbD (s : Inputs) : ℚ := roundDouble (carbGramsD s * 4)
def calFromProtD (s : Inputs) : ℚ := roundDouble (protGramsD s * 4)

/-- Source: `caloriesFromMacros = calFromFat + calFromCarb + calFromProt`, in double
arithmetic (left to right). -/
def caloriesFromMacrosD (s : Inputs) : ℚ :=
  roundDouble (roundDouble (calFromFatD s + calFromCarbD s) + calFromProtD s)

/-- Source: `pct`, in double arithmetic. -/
def pctD (s : Inputs) (v : ℚ) : ℚ :=
  if caloriesFromMacrosD s > 0 then roundDouble (roundDouble (v / caloriesFromMacrosD s) * 100)
  else 0

def fatPctD (s : Inputs) : ℚ := pctD s (calFromFatD s)
def carbPctD (s : Inputs) : ℚ := pctD s (calFromCarbD s)
def protPctD (s : Inputs) : ℚ := pctD s (calFromProtD s)

/-- Source: `diff = caloriesFromMacros - caloriesDeclared` in `draw`, in double
arithmetic. -/
def diffD (s : Inputs) : ℚ := roundDouble (caloriesFromMacrosD s - caloriesDeclaredD s)

/-- Source: `diffPct = caloriesDeclared ? (diff / caloriesDeclared) * 100 : 0` in
`draw`, in double arithmetic. -/
def diffPctD (s : Inputs) : ℚ :=
  if caloriesDeclaredD s ≠ 0 then roundDouble (roundDouble (diffD s / caloriesDeclaredD s) * 100)
  else 0

/-- Source: `step(ts)` in double arithmetic.  `Math.pow(x, 3)` is left to the
implementation by the language (its result is only required to approximate the
power), so it is the parameter `pow3`. -/
def stepD (pow3 : ℚ → ℚ) (start : Option ℚ) (ts : ℚ) : StepResult :=
  let start1 : ℚ :=
    match start with
    | none => ts
    | some v => if v = 0 then ts else v
  let elapsed := roundDouble (ts - start1)
  let duration : ℚ := 600
  let p := min 1 (roundDouble (elapsed / duration))
  let eased := roundDouble (1 - pow3 (roundDouble (1 - p)))
  { start := start1, elapsed := elapsed, eased := eased, rescheduled := decide (p < 1) }

/-- The correctly rounded cube, one admissible `Math.pow(x, 3)`. -/
def roundedCube (x : ℚ) : ℚ := roundDouble (x ^ 3)

/-! ## Percentages (C1) -/

/-- C1: whenever the macro calorie total is positive the three percentages add up to
exactly 100; whenever it is 0 (in particular whenever the weight is 0) all three
percentages are 0. -/
theorem C1_pct_sum (s : Inputs) :
    (caloriesFromMacros s > 0 → fatPct s + carbPct s + protPct s = 100) ∧
    (caloriesFromMacros s = 0 → fatPct s = 0 ∧ carbPct s = 0 ∧ protPct s = 0) ∧
    (s.weight = 0 → caloriesFromMacros s = 0 ∧ fatPct s = 0 ∧ carbPct s = 0 ∧ protPct s = 0) := by
  have hzero : caloriesFromMacros s = 0 → fatPct s = 0 ∧ carbPct s = 0 ∧ protPct s = 0 := by
    intro h0
    simp [fatPct, carbPct, protPct, pct, h0]
  have hw : s.weight = 0 → caloriesFromMacros s = 0 := by
    intro h
    simp [caloriesFromMacros, calFromFat, calFromCarb, calFromProt, fatGrams, carbGrams,
      protGrams, gramsFrom, h]
  refine ⟨?_, hzero, fun h => ⟨hw h, hzero (hw h)⟩⟩
  intro hpos
  have hne : caloriesFromMacros s ≠ 0 := ne_of_gt hpos
  have hsum : calFromFat s + calFromCarb s + calFromProt s = caloriesFromMacros s := rfl
  simp only [fatPct, carbPct, protPct, pct, if_pos hpos]
  field_simp
  rw [← hsum]
  ring

/-- Witness for C1 at the default inputs and at the default inputs with weight 0. -/
theorem C1_pct_sum_witness :
    fatPct defaultInputs + carbPct defaultInputs + protPct defaultInputs = 100 ∧
    caloriesFromMacros { defaultInputs with weight := 0 } = 0 ∧
    fatPct { defaultInputs with weight := 0 } = 0 := by
  refine ⟨(C1_pct_sum defaultInputs).1 ?_, ?_, ?_⟩
  · norm_num [caloriesFromMacros, calFromFat, calFromCarb, calFromProt, fatGrams, carbGrams,
      protGrams, gramsFrom, defaultInputs]
  · exact ((C1_pct_sum { defaultInputs with weight := 0 }).2.2 rfl).1
  · exact ((C1_pct_sum { defaultInputs with weight := 0 }).2.2 rfl).2.1

/-! ## Floors -/

theorem floor_of_bounds (x : ℚ) (n : ℤ) (h1 : (n : ℚ) ≤ x) (h2 : x < (n : ℚ) + 1) :
    ⌊x⌋ = n :=
  Int.floor_eq_iff.mpr ⟨h1, h2⟩

/-! ## Rounding lemmas -/

theorem roundHalfEven_le (x : ℚ) (n : ℤ) (h : x ≤ n) : roundHalfEven x ≤ n := by
  have hf : ⌊x⌋ ≤ n := Int.floor_le_iff.mpr (by linarith)
  have hfx : (⌊x⌋ : ℚ) ≤ x := Int.floor_le x
  unfold roundHalfEven
  rcases lt_or_eq_of_le hf with hlt | heq
  · split_ifs <;> omega
  · have hx : x - ⌊x⌋ < 1 / 2 := by
      have : (n : ℚ) ≤ x := by rw [← heq]; exact hfx
      have : x = n := le_antisymm h this
      rw [heq, this]; norm_num
    rw [if_pos hx]; exact hf

theorem le_roundHalfEven (x : ℚ) (n : ℤ) (h : (n : ℚ) ≤ x) : n ≤ roundHalfEven x := by
  have hf : n ≤ ⌊x⌋ := Int.le_floor.mpr h
  unfold roundHalfEven
  split_ifs <;> omega

theorem roundHalfEven_le_of_lt_half (x : ℚ) (n : ℤ) (h : x < n + 1 / 2) :
    roundHalfEven x ≤ n := by
  have hf : ⌊x⌋ ≤ n := by
    have : ⌊x⌋ < n + 1 := Int.floor_lt.mpr (by push_cast; linarith)
    omega
  unfold roundHalfEven
  rcases lt_or_eq_of_le hf with hlt | heq
  · split_ifs <;> omega
  · have hx : x - ⌊x⌋ < 1 / 2 := by rw [heq]; linarith
    rw [if_pos hx]; exact hf

theorem roundHalfEven_eq (x : ℚ) (m : ℤ) (h1 : (m : ℚ) - 1 / 2 < x) (h2 : x < m + 1 / 2) :
    roundHalfEven x = m := by
  apply le_antisymm (roundHalfEven_le_of_lt_half x m h2)
  have hfl : (⌊x⌋ : ℚ) ≤ x := Int.floor_le x
  have hfl2 : x < ⌊x⌋ + 1 := Int.lt_floor_add_one x
  have hf : m - 1 ≤ ⌊x⌋ := Int.le_floor.mpr (by push_cast; linarith)
  unfold roundHalfEven
  rcases lt_or_eq_of_le hf with hlt | heq
  · split_ifs <;> omega
  · have hx : ¬ (x - ⌊x⌋ < 1 / 2) := by
      rw [← heq]; push_cast; linarith
    have hx2 : 1 / 2 < x - ⌊x⌋ := by
      rw [← heq]; push_cast; linarith
    rw [if_neg hx, if_pos hx2]; omega

theorem log2_eq (q : ℚ) (k : ℤ) (hlo : (2 : ℚ) ^ k ≤ q) (hhi : q < (2 : ℚ) ^ (k + 1)) :
    Int.log 2 q = k := by
  have hq : 0 < q := lt_of_lt_of_le (zpow_pos (by norm_num) k) hlo
  have h1 : k ≤ Int.log 2 q :=
    (Int.zpow_le_iff_le_log (by norm_num : 1 < 2) hq).mp (by exact_mod_cast hlo)
  have h2 : Int.log 2 q < k + 1 :=
    (Int.lt_zpow_iff_log_lt (by norm_num : 1 < 2) hq).mp (by exact_mod_cast hhi)
  omega

theorem roundDouble_zero : roundDouble 0 = 0 := by
  simp [roundDouble]

theorem roundDouble_of_pos (q : ℚ) (hq : 0 < q) :
    roundDouble q =
      ((roundHalfEven (q / (2 : ℚ) ^ (max (Int.log 2 q - 52) (-1074))) : ℤ) : ℚ) *
        (2 : ℚ) ^ (max (Int.log 2 q - 52) (-1074)) := by
  unfold roundDouble
  rw [if_neg (ne_of_gt hq)]
  simp only [if_neg (not_lt.mpr (le_of_lt hq)), abs_of_pos hq]
  ring

theorem roundDouble_of_exp (q : ℚ) (e : ℤ) (he : -1074 ≤ e)
    (hlo : (2 : ℚ) ^ (e + 52) ≤ q) (hhi : q < (2 : ℚ) ^ (e + 52 + 1)) :
    roundDouble q = ((roundHalfEven (q / (2 : ℚ) ^ e) : ℤ) : ℚ) * (2 : ℚ) ^ e := by
  have hq : 0 < q := lt_of_lt_of_le (zpow_pos (by norm_num) _) hlo
  have hl : Int.log 2 q = e + 52 := log2_eq q (e + 52) hlo hhi
  rw [roundDouble_of_pos q hq, hl, show (e + 52 - 52 : ℤ) = e by ring, max_eq_left he]

/-- Evaluation of the rounding at a positive number whose exponent and significand are
known. -/
theorem roundDouble_eval (q : ℚ) (e m : ℤ) (he : -1074 ≤ e)
    (hlo : (2 : ℚ) ^ (e + 52) ≤ q) (hhi : q < (2 : ℚ) ^ (e + 52 + 1))
    (h1 : (m : ℚ) - 1 / 2 < q / (2 : ℚ) ^ e) (h2 : q / (2 : ℚ) ^ e < m + 1 / 2) :
    roundDouble q = (m : ℚ) * (2 : ℚ) ^ e := by
  rw [roundDouble_of_exp q e he hlo hhi, roundHalfEven_eq _ m h1 h2]

theorem roundDouble_neg (q : ℚ) : roundDouble (-q) = -roundDouble q := by
  unfold roundDouble
  by_cases h0 : q = 0
  · simp [h0]
  · rw [if_neg (neg_ne_zero.mpr h0), if_neg h0]
    simp only [abs_neg]
    rcases lt_or_gt_of_ne h0 with h | h
    · rw [if_neg (not_lt.mpr (by linarith : (0 : ℚ) ≤ -q)), if_pos h]; ring
    · rw [if_pos (by linarith : -q < 0), if_neg (not_lt.mpr (le_of_lt h))]; ring

theorem roundDouble_one : roundDouble 1 = 1 := by
  rw [roundDouble_eval 1 (-52) 4503599627370496 (by norm_num) (by norm_num) (by norm_num)
    (by norm_num) (by norm_num)]
  norm_num

theorem roundDouble_nonneg (q : ℚ) (hq : 0 ≤ q) : 0 ≤ roundDouble q := by
  rcases eq_or_lt_of_le hq with h | h
  · rw [← h, roundDouble_zero]
  · rw [roundDouble_of_pos q h]
    have hp : (0 : ℚ) < (2 : ℚ) ^ (max (Int.log 2 q - 52) (-1074)) := zpow_pos (by norm_num) _
    have hm : (0 : ℤ) ≤ roundHalfEven (q / (2 : ℚ) ^ (max (Int.log 2 q - 52) (-1074))) :=
      le_roundHalfEven _ 0 (by push_cast; exact div_nonneg hq (le_of_lt hp))
    exact mul_nonneg (by exact_mod_cast hm) (le_of_lt hp)

theorem roundDouble_nonpos (q : ℚ) (hq : q ≤ 0) : roundDouble q ≤ 0 := by
  have h := roundDouble_nonneg (-q) (by linarith)
  rw [roundDouble_neg] at h
  linarith

/-- Rounding does not cross a power of two from below. -/
theorem roundDouble_le_two_zpow (q : ℚ) (j : ℤ) (hq : 0 < q) (hj : -1074 ≤ j)
    (h : q ≤ (2 : ℚ) ^ j) : roundDouble q ≤ (2 : ℚ) ^ j := by
  have hL : Int.log 2 q < j + 1 :=
    (Int.lt_zpow_iff_log_lt (by norm_num : 1 < 2) hq).mp (by
      have : (2 : ℚ) ^ j < (2 : ℚ) ^ (j + 1) := zpow_lt_zpow_right₀ (by norm_num) (by omega)
      exact_mod_cast lt_of_le_of_lt h this)
  have he : max (Int.log 2 q - 52) (-1074) ≤ j := max_le (by omega) hj
  rw [roundDouble_of_pos q hq]
  generalize max (Int.log 2 q - 52) (-1074) = e at he
  have hp : (0 : ℚ) < (2 : ℚ) ^ e := zpow_pos (by norm_num) _
  obtain ⟨n, hn⟩ := Int.eq_ofNat_of_zero_le (by omega : 0 ≤ j - e)
  have hpow : (2 : ℚ) ^ j = (((2 : ℤ) ^ n : ℤ) : ℚ) * (2 : ℚ) ^ e := by
    have : j = (n : ℤ) + e := by omega
    rw [this, zpow_add₀ (by norm_num : (2 : ℚ) ≠ 0), zpow_natCast]
    push_cast
    ring
  have hm : roundHalfEven (q / (2 : ℚ) ^ e) ≤ (2 : ℤ) ^ n :=
    roundHalfEven_le _ _ (by
      rw [div_le_iff₀ hp, ← hpow]; exact h)
  rw [hpow]
  exact mul_le_mul_of_nonneg_right (by exact_mod_cast hm) (le_of_lt hp)

/-- Rounding does not cross a power of two (in the normal range) from above. -/
theorem two_zpow_le_roundDouble (q : ℚ) (j : ℤ) (hj : -1022 ≤ j) (h : (2 : ℚ) ^ j ≤ q) :
    (2 : ℚ) ^ j ≤ roundDouble q := by
  have hq : 0 < q := lt_of_lt_of_le (zpow_pos (by norm_num) _) h
  have hL : j ≤ Int.log 2 q :=
    (Int.zpow_le_iff_le_log (by norm_num : 1 < 2) hq).mp (by exact_mod_cast h)
  have hlo : (2 : ℚ) ^ (Int.log 2 q) ≤ q := by
    have := Int.zpow_log_le_self (by norm_num : 1 < 2) hq
    exact_mod_cast this
  rw [roundDouble_of_pos q hq, max_eq_left (by omega)]
  have hp : (0 : ℚ) < (2 : ℚ) ^ (Int.log 2 q - 52) := zpow_pos (by norm_num) _
  have hsplit : (2 : ℚ) ^ (Int.log 2 q) =
      (((2 : ℤ) ^ 52 : ℤ) : ℚ) * (2 : ℚ) ^ (Int.log 2 q - 52) := by
    have : Int.log 2 q = ((52 : ℕ) : ℤ) + (Int.log 2 q - 52) := by push_cast; ring
    conv_lhs => rw [this]
    rw [zpow_add₀ (by norm_num : (2 : ℚ) ≠ 0), zpow_natCast]
    push_cast
    ring
  have hm : (2 : ℤ) ^ 52 ≤ roundHalfEven (q / (2 : ℚ) ^ (Int.log 2 q - 52)) :=
    le_roundHalfEven _ _ (by
      rw [le_div_iff₀ hp, ← hsplit]; exact hlo)
  calc (2 : ℚ) ^ j ≤ (2 : ℚ) ^ (Int.log 2 q) := zpow_le_zpow_right₀ (by norm_num) hL
    _ = (((2 : ℤ) ^ 52 : ℤ) : ℚ) * (2 : ℚ) ^ (Int.log 2 q - 52) := hsplit
    _ ≤ _ := mul_le_mul_of_nonneg_right (by exact_mod_cast hm) (le_of_lt hp)

theorem roundDouble_le_one (q : ℚ) (h : q ≤ 1) : roundDouble q ≤ 1 := by
  rcases le_or_lt q 0 with h0 | h0
  · linarith [roundDouble_nonpos q h0]
  · have := roundDouble_le_two_zpow q 0 h0 (by norm_num) (by simpa using h)
    simpa using this

theorem one_le_roundDouble (q : ℚ) (h : 1 ≤ q) : 1 ≤ roundDouble q := by
  have := two_zpow_le_roundDouble q 0 (by norm_num) (by simpa using h)
  simpa using this

/-- Below the midpoint between 1 and its predecessor the rounding stays below 1. -/
theorem roundDouble_lt_one (q : ℚ) (h : q < 1 - 1 / 2 ^ 54) : roundDouble q < 1 := by
  rcases le_or_lt q 0 with h0 | h0
  · linarith [roundDouble_nonpos q h0]
  rcases lt_or_le q (1 / 2) with hh | hh
  · have := roundDouble_le_two_zpow q (-1) h0 (by norm_num) (by norm_num; linarith)
    norm_num at this
    linarith
  · rw [roundDouble_of_exp q (-53) (by norm_num) (by norm_num; linarith)
      (by norm_num; linarith)]
    have hm : roundHalfEven (q / (2 : ℚ) ^ (-53 : ℤ)) ≤ 2 ^ 53 - 1 :=
      roundHalfEven_le_of_lt_half _ _ (by
        rw [div_lt_iff₀ (zpow_pos (by norm_num) _)]
        norm_num
        linarith)
    have hm2 : ((roundHalfEven (q / (2 : ℚ) ^ (-53 : ℤ)) : ℤ) : ℚ) ≤ 2 ^ 53 - 1 := by
      exact_mod_cast hm
    have hp : (0 : ℚ) < (2 : ℚ) ^ (-53 : ℤ) := zpow_pos (by norm_num) _
    calc ((roundHalfEven (q / (2 : ℚ) ^ (-53 : ℤ)) : ℤ) : ℚ) * (2 : ℚ) ^ (-53 : ℤ)
        ≤ (2 ^ 53 - 1) * (2 : ℚ) ^ (-53 : ℤ) := mul_le_mul_of_nonneg_right hm2 (le_of_lt hp)
      _ < 1 := by norm_num

/-- No double lies strictly between 600 - 2^-43 and 600. -/
theorem roundDouble_lt_600 (q : ℚ) (h : roundDouble q < 600) :
    roundDouble q ≤ 600 - 1 / 2 ^ 43 := by
  rcases le_or_lt q 0 with h0 | h0
  · linarith [roundDouble_nonpos q h0]
  rcases lt_or_le q 512 with h1 | h1
  · have := roundDouble_le_two_zpow q 9 h0 (by norm_num) (by norm_num; linarith)
    norm_num at this
    linarith
  rcases lt_or_le q 1024 with h2 | h2
  · have hr := roundDouble_of_exp q (-43) (by norm_num) (by norm_num; linarith)
      (by norm_num; linarith)
    rw [hr] at h ⊢
    generalize roundHalfEven (q / (2 : ℚ) ^ (-43 : ℤ)) = M at h ⊢
    have h43 : (2 : ℚ) ^ (-43 : ℤ) = 1 / 2 ^ 43 := by norm_num
    rw [h43, mul_one_div] at h ⊢
    rw [div_lt_iff₀ (by norm_num : (0 : ℚ) < 2 ^ 43)] at h
    have hlt : M < 600 * 2 ^ 43 := by exact_mod_cast h
    have hle : M ≤ 600 * 2 ^ 43 - 1 := by omega
    have hle2 : (M : ℚ) ≤ 600 * 2 ^ 43 - 1 := by exact_mod_cast hle
    rw [div_le_iff₀ (by norm_num : (0 : ℚ) < 2 ^ 43)]
    have : (600 - 1 / 2 ^ 43 : ℚ) * 2 ^ 43 = 600 * 2 ^ 43 - 1 := by norm_num
    rw [this]
    exact hle2
  · have := two_zpow_le_roundDouble q 10 (by norm_num) (by norm_num; linarith)
    norm_num at this
    linarith

/-! ## Values at the default inputs in double arithmetic -/

theorem toDoubles_default :
    toDoubles defaultInputs =
      { weight := 150, cal100 := 165, fat100 := 8106479329266893 / 2251799813685248, carb100 := 0,
        prot100 := 31 } := by
  have hw : roundDouble (150) = 150 := by
    rw [roundDouble_eval _ (-45) 5277655813324800 (by norm_num) (by norm_num) (by norm_num)
      (by norm_num) (by norm_num)]
    norm_num
  have hcal : roundDouble (165) = 165 := by
    rw [roundDouble_eval _ (-45) 5805421394657280 (by norm_num) (by norm_num) (by norm_num)
      (by norm_num) (by norm_num)]
    norm_num
  have hfat : roundDouble (36 / 10) = 8106479329266893 / 2251799813685248 := by
    rw [roundDouble_eval _ (-51) 8106479329266893 (by norm_num) (by norm_num) (by norm_num)
      (by norm_num) (by norm_num)]
    norm_num
  have hprot : roundDouble (31) = 31 := by
    rw [roundDouble_eval _ (-48) 8725724278030336 (by norm_num) (by norm_num) (by norm_num)
      (by norm_num) (by norm_num)]
    norm_num
  simp only [toDoubles, defaultInputs, hw, hcal, hfat, hprot, roundDouble_zero]

theorem fatGramsD_default :
    fatGramsD (toDoubles defaultInputs) = 3039929748475085 / 562949953421312 := by
  have e1 : roundDouble (8106479329266893 / 2251799813685248 * 150) = 540 := by
    rw [roundDouble_eval _ (-43) 4749890231992320 (by norm_num) (by norm_num) (by norm_num)
      (by norm_num) (by norm_num)]
    norm_num
  have e2 : roundDouble (540 / 100) = 3039929748475085 / 562949953421312 := by
    rw [roundDouble_eval _ (-50) 6079859496950170 (by norm_num) (by norm_num) (by norm_num)
      (by norm_num) (by norm_num)]
    norm_num
  simp only [fatGramsD, gramsFromD, toDoubles_default]
  rw [e1, e2]

theorem carbGramsD_default :
    carbGramsD (toDoubles defaultInputs) = 0 := by
  simp only [carbGramsD, gramsFromD, toDoubles_default]
  norm_num [roundDouble_zero]

theorem calFromCarbD_default :
    calFromCarbD (toDoubles defaultInputs) = 0 := by
  simp only [calFromCarbD, carbGramsD_default]
  norm_num [roundDouble_zero]

theorem protGramsD_default :
    protGramsD (toDoubles defaultInputs) = 93 / 2 := by
  have e1 : roundDouble (31 * 150) = 4650 := by
    rw [roundDouble_eval _ (-40) 5112729069158400 (by norm_num) (by norm_num) (by norm_num)
      (by norm_num) (by norm_num)]
    norm_num
  have e2 : roundDouble (4650 / 100) = 93 / 2 := by
    rw [roundDouble_eval _ (-47) 6544293208522752 (by norm_num) (by norm_num) (by norm_num)
      (by norm_num) (by norm_num)]
    norm_num
  simp only [protGramsD, gramsFromD, toDoubles_default]
  rw [e1, e2]

theorem caloriesDeclaredD_default :
    caloriesDeclaredD (toDoubles defaultInputs) = 495 / 2 := by
  have e1 : roundDouble (165 * 150) = 24750 := by
    rw [roundDouble_eval _ (-38) 6803228196864000 (by norm_num) (by norm_num) (by norm_num)
      (by norm_num) (by norm_num)]
    norm_num
  have e2 : roundDouble (24750 / 100) = 495 / 2 := by
    rw [roundDouble_eval _ (-45) 8708132091985920 (by norm_num) (by norm_num) (by norm_num)
      (by norm_num) (by norm_num)]
    norm_num
  simp only [caloriesDeclaredD, toDoubles_default]
  rw [e1, e2]

theorem calFromFatD_default :
    calFromFatD (toDoubles defaultInputs) = 6839841934068941 / 140737488355328 := by
  have e1 : roundDouble (3039929748475085 / 562949953421312 * 9) = 6839841934068941 / 140737488355328 := by
    rw [roundDouble_eval _ (-47) 6839841934068941 (by norm_num) (by norm_num) (by norm_num)
      (by norm_num) (by norm_num)]
    norm_num
  simp only [calFromFatD]
  rw [fatGramsD_default, e1]

theorem calFromProtD_default :
    calFromProtD (toDoubles defaultInputs) = 186 := by
  have e1 : roundDouble (93 / 2 * 4) = 186 := by
    rw [roundDouble_eval _ (-45) 6544293208522752 (by norm_num) (by norm_num) (by norm_num)
      (by norm_num) (by norm_num)]
    norm_num
  simp only [calFromProtD]
  rw [protGramsD_default, e1]

theorem caloriesFromMacrosD_default :
    caloriesFromMacrosD (toDoubles defaultInputs) = 8254253692039987 / 35184372088832 := by
  have e1 : roundDouble (6839841934068941 / 140737488355328 + 0) = 6839841934068941 / 140737488355328 := by
    rw [roundDouble_eval _ (-47) 6839841934068941 (by norm_num) (by norm_num) (by norm_num)
      (by norm_num) (by norm_num)]
    norm_num
  have e2 : roundDouble (6839841934068941 / 140737488355328 + 186) = 8254253692039987 / 35184372088832 := by
    rw [roundDouble_eval _ (-45) 8254253692039987 (by norm_num) (by norm_num) (by norm_num)
      (by norm_num) (by norm_num)]
    norm_num
  simp only [caloriesFromMacrosD]
  rw [calFromFatD_default, calFromCarbD_default, calFromProtD_default, e1, e2]

theorem diffD_default :
    diffD (toDoubles defaultInputs) = -(453878399945933 / 35184372088832) := by
  have e1 : roundDouble (8254253692039987 / 35184372088832 - 495 / 2) = -(453878399945933 / 35184372088832) := by
    rw [show (8254253692039987 / 35184372088832 - 495 / 2 : ℚ) = -(453878399945933 / 35184372088832) by norm_num, roundDouble_neg,
      roundDouble_eval _ (-49) 7262054399134928 (by norm_num) (by norm_num) (by norm_num)
      (by norm_num) (by norm_num)]
    norm_num
  simp only [diffD]
  rw [caloriesFromMacrosD_default, caloriesDeclaredD_default, e1]

theorem fatPctD_default :
    fatPctD (toDoubles defaultInputs) = 5831067292471391 / 281474976710656 := by
  have e1 : roundDouble (6839841934068941 / 140737488355328 / (8254253692039987 / 35184372088832)) = 1865941533590845 / 9007199254740992 := by
    rw [roundDouble_eval _ (-55) 7463766134363380 (by norm_num) (by norm_num) (by norm_num)
      (by norm_num) (by norm_num)]
    norm_num
  have e2 : roundDouble (1865941533590845 / 9007199254740992 * 100) = 5831067292471391 / 281474976710656 := by
    rw [roundDouble_eval _ (-48) 5831067292471391 (by norm_num) (by norm_num) (by norm_num)
      (by norm_num) (by norm_num)]
    norm_num
  simp only [fatPctD, pctD, caloriesFromMacrosD_default, calFromFatD_default]
  rw [if_pos (by norm_num), e1, e2]

theorem protPctD_default :
    protPctD (toDoubles defaultInputs) = 697388449331069 / 8796093022208 := by
  have e1 : roundDouble (186 / (8254253692039987 / 35184372088832)) = 7141257721150147 / 9007199254740992 := by
    rw [roundDouble_eval _ (-53) 7141257721150147 (by norm_num) (by norm_num) (by norm_num)
      (by norm_num) (by norm_num)]
    norm_num
  have e2 : roundDouble (7141257721150147 / 9007199254740992 * 100) = 697388449331069 / 8796093022208 := by
    rw [roundDouble_eval _ (-46) 5579107594648552 (by norm_num) (by norm_num) (by norm_num)
      (by norm_num) (by norm_num)]
    norm_num
  simp only [protPctD, pctD, caloriesFromMacrosD_default, calFromProtD_default]
  rw [if_pos (by norm_num), e1, e2]

theorem diffPctD_default :
    diffPctD (toDoubles defaultInputs) = -(1467081696794935 / 281474976710656) := by
  have e1 : roundDouble (-(453878399945933 / 35184372088832) / (495 / 2)) = -(7511458287590067 / 144115188075855872) := by
    rw [show (-(453878399945933 / 35184372088832) / (495 / 2) : ℚ) = -(453878399945933 / 8708132091985920) by norm_num, roundDouble_neg,
      roundDouble_eval _ (-57) 7511458287590067 (by norm_num) (by norm_num) (by norm_num)
      (by norm_num) (by norm_num)]
    norm_num
  have e2 : roundDouble (-(7511458287590067 / 144115188075855872) * 100) = -(1467081696794935 / 281474976710656) := by
    rw [show (-(7511458287590067 / 144115188075855872) * 100 : ℚ) = -(187786457189751675 / 36028797018963968) by norm_num, roundDouble_neg,
      roundDouble_eval _ (-50) 5868326787179740 (by norm_num) (by norm_num) (by norm_num)
      (by norm_num) (by norm_num)]
    norm_num
  simp only [diffPctD, caloriesDeclaredD_default, diffD_default]
  rw [if_pos (by norm_num), e1, e2]

/-! ## Default scenario in double arithmetic (C2) -/

/-- C2 (as stated) fails: at the default inputs the discrepancy the code computes is
the exact difference of the doubles 234.6 and 247.5, which is neither the double
denoted by -12.9 nor the number -12.9. -/
theorem C2_counterexample :
    diffD (toDoubles defaultInputs) ≠ roundDouble (-(129 / 10)) ∧
    diffD (toDoubles defaultInputs) ≠ -(129 / 10) := by
  have l129 : roundDouble (129 / 10) = 7262054399134925 / 562949953421312 := by
    rw [roundDouble_eval _ (-49) 7262054399134925 (by norm_num) (by norm_num) (by norm_num)
      (by norm_num) (by norm_num)]
    norm_num
  rw [diffD_default, roundDouble_neg, l129]
  constructor <;> norm_num

/-- C2 (amended): at the default inputs (150 g, 165 kcal, 3.6 / 0 / 31 g per 100 g) the
values computed in double arithmetic are the doubles denoted by 5.4 g fat, 0 g carbs,
46.5 g protein, 247.5 kcal declared, 48.6 kcal from fat, 186 kcal from protein and
234.6 kcal from macros; the discrepancy is the exact difference of the doubles 234.6
and 247.5, which is the double -12.900000000000006 and prints as -12.9 to one decimal;
the fat, protein and discrepancy percentages print to one decimal as 20.7, 79.3 and
-5.2. -/
theorem C2_default_scenario_double :
    fatGramsD (toDoubles defaultInputs) = roundDouble (54 / 10) ∧
    carbGramsD (toDoubles defaultInputs) = 0 ∧
    protGramsD (toDoubles defaultInputs) = 465 / 10 ∧
    caloriesDeclaredD (toDoubles defaultInputs) = 2475 / 10 ∧
    calFromFatD (toDoubles defaultInputs) = roundDouble (486 / 10) ∧
    calFromProtD (toDoubles defaultInputs) = 186 ∧
    caloriesFromMacrosD (toDoubles defaultInputs) = roundDouble (2346 / 10) ∧
    diffD (toDoubles defaultInputs) = roundDouble (2346 / 10) - 2475 / 10 ∧
    diffD (toDoubles defaultInputs) = roundDouble (-(12900000000000006 / 1000000000000000)) ∧
    toFixed1 (diffD (toDoubles defaultInputs)) = -(129 / 10) ∧
    toFixed1 (fatPctD (toDoubles defaultInputs)) = 207 / 10 ∧
    toFixed1 (protPctD (toDoubles defaultInputs)) = 793 / 10 ∧
    toFixed1 (diffPctD (toDoubles defaultInputs)) = -(52 / 10) := by
  have l54 : roundDouble (54 / 10) = 3039929748475085 / 562949953421312 := by
    rw [roundDouble_eval _ (-50) 6079859496950170 (by norm_num) (by norm_num) (by norm_num)
      (by norm_num) (by norm_num)]
    norm_num
  have l486 : roundDouble (486 / 10) = 6839841934068941 / 140737488355328 := by
    rw [roundDouble_eval _ (-47) 6839841934068941 (by norm_num) (by norm_num) (by norm_num)
      (by norm_num) (by norm_num)]
    norm_num
  have l2346 : roundDouble (2346 / 10) = 8254253692039987 / 35184372088832 := by
    rw [roundDouble_eval _ (-45) 8254253692039987 (by norm_num) (by norm_num) (by norm_num)
      (by norm_num) (by norm_num)]
    norm_num
  have l129b : roundDouble (12900000000000006 / 1000000000000000) = 453878399945933 / 35184372088832 := by
    rw [roundDouble_eval _ (-49) 7262054399134928 (by norm_num) (by norm_num) (by norm_num)
      (by norm_num) (by norm_num)]
    norm_num
  refine ⟨?_, carbGramsD_default, ?_, ?_, ?_, calFromProtD_default, ?_, ?_, ?_, ?_, ?_, ?_, ?_⟩
  · rw [fatGramsD_default, l54]
  · rw [protGramsD_default]; norm_num
  · rw [caloriesDeclaredD_default]; norm_num
  · rw [calFromFatD_default, l486]
  · rw [caloriesFromMacrosD_default, l2346]
  · rw [diffD_default, l2346]; norm_num
  · rw [diffD_default, roundDouble_neg, l129b]
  · have fl : ⌊(-(-(453878399945933 / 35184372088832)) : ℚ) * 10 + 1 / 2⌋ = 129 :=
      floor_of_bounds _ 129 (by norm_num) (by norm_num)
    simp only [diffD_default, toFixed1, fl]; norm_num
  · have fl : ⌊(5831067292471391 / 281474976710656 : ℚ) * 10 + 1 / 2⌋ = 207 :=
      floor_of_bounds _ 207 (by norm_num) (by norm_num)
    simp only [fatPctD_default, toFixed1, fl]; norm_num
  · have fl : ⌊(697388449331069 / 8796093022208 : ℚ) * 10 + 1 / 2⌋ = 793 :=
      floor_of_bounds _ 793 (by norm_num) (by norm_num)
    simp only [protPctD_default, toFixed1, fl]; norm_num
  · have fl : ⌊(-(-(1467081696794935 / 281474976710656)) : ℚ) * 10 + 1 / 2⌋ = 52 :=
      floor_of_bounds _ 52 (by norm_num) (by norm_num)
    simp only [diffPctD_default, toFixed1, fl]; norm_num

/-! ## Discrepancy (C3) -/

/-- C3: the discrepancy computed by draw is the macro total minus the declared
calories; its percentage is that difference over the declared calories times 100 when
the declared calories are not 0, and 0 otherwise; for Avocado at 100 g the macro total
is 179, the discrepancy +19 and its percentage 11.875. -/
theorem C3_discrepancy (s : Inputs) (w h progress : ℚ) :
    (draw s w h progress).diff = caloriesFromMacros s - caloriesDeclared s ∧
    (caloriesDeclared s ≠ 0 →
      (draw s w h progress).diffPct =
        (draw s w h progress).diff / caloriesDeclared s * 100) ∧
    (caloriesDeclared s = 0 → (draw s w h progress).diffPct = 0) ∧
    List.map (fun p => onClick p { defaultInputs with weight := 100 })
      (List.filter (fun p => p.name == "Avocado") presets) = [avocado100] ∧
    caloriesFromMacros avocado100 = 179 ∧
    (draw avocado100 w h progress).diff = 19 ∧
    (draw avocado100 w h progress).diffPct = 11875 / 1000 := by
  have hm : caloriesFromMacros avocado100 = 179 := by
    norm_num [caloriesFromMacros, calFromFat, calFromCarb, calFromProt, fatGrams, carbGrams,
      protGrams, gramsFrom, avocado100]
  have hd : caloriesDeclared avocado100 = 160 := by
    norm_num [caloriesDeclared, avocado100]
  refine ⟨rfl, ?_, ?_, ?_, hm, ?_, ?_⟩
  · intro hne
    simp only [draw, if_pos hne]
  · intro h0
    simp [draw, h0]
  · decide
  · simp only [draw, hm, hd]; norm_num
  · simp only [draw, hm, hd]; norm_num

/-- Witness for C3 at the default inputs, whose declared calories are not 0. -/
theorem C3_discrepancy_witness :
    (draw defaultInputs 400 420 1).diffPct =
      (draw defaultInputs 400 420 1).diff / caloriesDeclared defaultInputs * 100 ∧
    (draw { defaultInputs with cal100 := 0 } 400 420 1).diffPct = 0 :=
  ⟨(C3_discrepancy defaultInputs 400 420 1).2.1
      (by norm_num [caloriesDeclared, defaultInputs]),
   (C3_discrepancy { defaultInputs with cal100 := 0 } 400 420 1).2.2.1
      (by norm_num [caloriesDeclared, defaultInputs])⟩

/-! ## Presets (C4) -/

/-- C4: selecting any of the four presets sets the four composition fields to the
preset's values and leaves the weight as it was. -/
theorem C4_preset_select (s : Inputs) (p : Preset) (hp : p ∈ presets) :
    List.map Preset.name presets = ["Corn cakes", "Avocado", "Banana", "Olive oil (100g)"] ∧
    (onClick p s).cal100 = p.cal ∧ (onClick p s).fat100 = p.fat ∧
    (onClick p s).carb100 = p.carb ∧ (onClick p s).prot100 = p.prot ∧
    (onClick p s).weight = s.weight := by
  have _ := hp
  exact ⟨by decide, rfl, rfl, rfl, rfl, rfl⟩

/-- Witness for C4: Banana selected over the default inputs. -/
theorem C4_preset_select_witness :
    (onClick { name := "Banana", cal := 89, fat := 3 / 10, carb := 23, prot := 11 / 10 }
      defaultInputs).cal100 = 89 ∧
    (onClick { name := "Banana", cal := 89, fat := 3 / 10, carb := 23, prot := 11 / 10 }
      defaultInputs).weight = 150 := by
  have h := C4_preset_select defaultInputs
    { name := "Banana", cal := 89, fat := 3 / 10, carb := 23, prot := 11 / 10 }
    (by simp [presets])
  exact ⟨h.2.1, h.2.2.2.2.2⟩

/-! ## Animation driver (C5) -/

theorem ease_bounds (p : ℚ) (h0 : 0 ≤ p) (h1 : p ≤ 1) :
    0 ≤ 1 - (1 - p) ^ 3 ∧ 1 - (1 - p) ^ 3 ≤ 1 ∧ (1 - (1 - p) ^ 3 = 1 ↔ p = 1) := by
  have hq0 : 0 ≤ 1 - p := by linarith
  have hq1 : 1 - p ≤ 1 := by linarith
  have hc0 : 0 ≤ (1 - p) ^ 3 := pow_nonneg hq0 3
  have hc1 : (1 - p) ^ 3 ≤ 1 := pow_le_one₀ hq0 hq1
  refine ⟨by linarith, by linarith, ?_⟩
  constructor
  · intro h
    have hz : (1 - p) ^ 3 = 0 := by linarith
    have hz1 : 1 - p = 0 := pow_eq_zero_iff (by norm_num) |>.mp hz
    linarith
  · intro h
    rw [h]
    norm_num

theorem roundedCube_zero : roundedCube 0 = 0 := by
  simp [roundedCube, roundDouble_zero]

theorem roundedCube_bounds (x : ℚ) (h0 : 0 ≤ x) (h1 : x ≤ 1) :
    0 ≤ roundedCube x ∧ roundedCube x ≤ 1 :=
  ⟨roundDouble_nonneg _ (pow_nonneg h0 3), roundDouble_le_one _ (pow_le_one₀ h0 h1)⟩

theorem step_eq (start : Option ℚ) (ts s0 : ℚ)
    (hs : (start = some s0 ∧ s0 ≠ 0) ∨ ((start = none ∨ start = some 0) ∧ s0 = ts)) :
    step start ts =
      { start := s0, elapsed := ts - s0,
        eased := 1 - (1 - min 1 ((ts - s0) / 600)) ^ 3,
        rescheduled := decide (min 1 ((ts - s0) / 600) < 1) } := by
  rcases hs with ⟨rfl, h0⟩ | ⟨rfl | rfl, rfl⟩
  · simp only [step, if_neg h0]
  · simp only [step]
  · simp only [step, if_true]

theorem stepD_eq (pow3 : ℚ → ℚ) (start : Option ℚ) (ts s0 : ℚ)
    (hs : (start = some s0 ∧ s0 ≠ 0) ∨ ((start = none ∨ start = some 0) ∧ s0 = ts)) :
    stepD pow3 start ts =
      { start := s0, elapsed := roundDouble (ts - s0),
        eased := roundDouble
          (1 - pow3 (roundDouble (1 - min 1 (roundDouble (roundDouble (ts - s0) / 600))))),
        rescheduled := decide (min 1 (roundDouble (roundDouble (ts - s0) / 600)) < 1) } := by
  rcases hs with ⟨rfl, h0⟩ | ⟨rfl | rfl, rfl⟩
  · simp only [stepD, if_neg h0]
  · simp only [stepD]
  · simp only [stepD, if_true]

/-- In double arithmetic the quotient by 600 of a double is below 1 exactly when the
double is below 600. -/
theorem quotient_lt_one_iff (x : ℚ) :
    roundDouble (roundDouble x / 600) < 1 ↔ roundDouble x < 600 := by
  constructor
  · intro h
    by_contra hge
    have h1 : 1 ≤ roundDouble x / 600 := by
      rw [le_div_iff₀ (by norm_num : (0 : ℚ) < 600)]
      linarith [not_lt.mp hge]
    linarith [one_le_roundDouble _ h1]
  · intro h
    have hle := roundDouble_lt_600 x h
    apply roundDouble_lt_one
    rw [div_lt_iff₀ (by norm_num : (0 : ℚ) < 600)]
    have : (600 - 1 / 2 ^ 43 : ℚ) < (1 - 1 / 2 ^ 54) * 600 := by norm_num
    linarith

/-- C5 (as stated) fails in the arithmetic of the code: on the frame 599.9990234375 ms
after a run started at time stamp 1000 (both time stamps are doubles), the progress is
below 1, so another frame is requested, and yet the eased progress handed to draw is
already 1, because 1 - (1 - p)^3 rounds to 1. -/
theorem C5_counterexample :
    roundDouble 1000 = 1000 ∧ roundDouble (1638399 / 1024) = 1638399 / 1024 ∧
    (stepD roundedCube (some 1000) (1638399 / 1024)).elapsed = 614399 / 1024 ∧
    (stepD roundedCube (some 1000) (1638399 / 1024)).elapsed < 600 ∧
    (stepD roundedCube (some 1000) (1638399 / 1024)).rescheduled = true ∧
    (stepD roundedCube (some 1000) (1638399 / 1024)).eased = 1 := by
  have hts : roundDouble (1638399 / 1024) = 1638399 / 1024 := by
    rw [roundDouble_eval _ (-42) 7036870122799104 (by norm_num) (by norm_num) (by norm_num)
      (by norm_num) (by norm_num)]
    norm_num
  have hs0 : roundDouble (1000) = 1000 := by
    rw [roundDouble_eval _ (-43) 8796093022208000 (by norm_num) (by norm_num) (by norm_num)
      (by norm_num) (by norm_num)]
    norm_num
  have h1 : roundDouble (1638399 / 1024 - 1000) = 614399 / 1024 := by
    rw [roundDouble_eval _ (-43) 5277647223390208 (by norm_num) (by norm_num) (by norm_num)
      (by norm_num) (by norm_num)]
    norm_num
  have h2 : roundDouble (614399 / 1024 / 600) = 9007184594585955 / 9007199254740992 := by
    rw [roundDouble_eval _ (-53) 9007184594585955 (by norm_num) (by norm_num) (by norm_num)
      (by norm_num) (by norm_num)]
    norm_num
  have hmin : min (1 : ℚ) (9007184594585955 / 9007199254740992) =
      9007184594585955 / 9007199254740992 := min_eq_right (by norm_num)
  have h3 : roundDouble (1 - 9007184594585955 / 9007199254740992) =
      14660155037 / 9007199254740992 := by
    rw [roundDouble_eval _ (-72) 7686143364038656 (by norm_num) (by norm_num) (by norm_num)
      (by norm_num) (by norm_num)]
    norm_num
  have h4 : roundDouble ((14660155037 / 9007199254740992) ^ 3) =
      5596878794496901 / 1298074214633706907132624082305024 := by
    rw [roundDouble_eval _ (-110) 5596878794496901 (by norm_num) (by norm_num) (by norm_num)
      (by norm_num) (by norm_num)]
    norm_num
  have h5 : roundDouble (1 - 5596878794496901 / 1298074214633706907132624082305024) = 1 := by
    rw [roundDouble_eval _ (-53) 9007199254740992 (by norm_num) (by norm_num) (by norm_num)
      (by norm_num) (by norm_num)]
    norm_num
  rw [stepD_eq roundedCube (some 1000) (1638399 / 1024) 1000 (Or.inl ⟨rfl, by norm_num⟩)]
  simp only [h1, h2, hmin, h3, roundedCube, h4, h5]
  refine ⟨hs0, hts, trivial, by norm_num, ?_, trivial⟩
  rw [decide_eq_true_iff]
  norm_num

/-- C5 (amended): on a frame at time stamp ts of a run whose start time is s0 (the
stored one, or ts itself on the first frame), with elapsed time t = ts - s0 >= 0, step
hands draw the eased progress 1 - (1 - min(1, t/600))^3, which lies between 0 and 1, and
requests another frame exactly when t < 600; the frame after which no further frame is
requested draws 1.  In exact arithmetic it is the only frame that draws 1; in the
double arithmetic of the code (for any Math.pow that maps 0 to 0 and [0,1] into
[0,1]) the bounds, the rescheduling rule and the final value 1 hold as well. -/
theorem C5_step_easing (pow3 : ℚ → ℚ) (start : Option ℚ) (ts s0 : ℚ)
    (hpow0 : pow3 0 = 0)
    (hpow : ∀ x : ℚ, 0 ≤ x → x ≤ 1 → 0 ≤ pow3 x ∧ pow3 x ≤ 1)
    (hs : (start = some s0 ∧ s0 ≠ 0) ∨ ((start = none ∨ start = some 0) ∧ s0 = ts))
    (ht : 0 ≤ ts - s0) :
    ((step start ts).start = s0 ∧ (step start ts).elapsed = ts - s0 ∧
      (step start ts).eased = 1 - (1 - min 1 ((ts - s0) / 600)) ^ 3 ∧
      0 ≤ (step start ts).eased ∧ (step start ts).eased ≤ 1 ∧
      ((step start ts).rescheduled = true ↔ ts - s0 < 600) ∧
      ((step start ts).eased = 1 ↔ (step start ts).rescheduled = false)) ∧
    ((stepD pow3 start ts).start = s0 ∧
      (stepD pow3 start ts).elapsed = roundDouble (ts - s0) ∧
      (stepD pow3 start ts).eased = roundDouble (1 - pow3 (roundDouble
        (1 - min 1 (roundDouble ((stepD pow3 start ts).elapsed / 600))))) ∧
      0 ≤ (stepD pow3 start ts).eased ∧ (stepD pow3 start ts).eased ≤ 1 ∧
      ((stepD pow3 start ts).rescheduled = true ↔ (stepD pow3 start ts).elapsed < 600) ∧
      ((stepD pow3 start ts).rescheduled = false → (stepD pow3 start ts).eased = 1)) := by
  constructor
  · rw [step_eq start ts s0 hs]
    have hp0 : (0 : ℚ) ≤ min 1 ((ts - s0) / 600) :=
      le_min (by norm_num) (div_nonneg ht (by norm_num))
    have hp1 : min 1 ((ts - s0) / 600) ≤ 1 := min_le_left _ _
    have hlt : min 1 ((ts - s0) / 600) < 1 ↔ ts - s0 < 600 := by
      rw [min_lt_iff, div_lt_iff₀ (by norm_num : (0 : ℚ) < 600)]
      constructor
      · rintro (h | h)
        · exact absurd h (lt_irrefl _)
        · linarith
      · intro h
        right
        linarith
    obtain ⟨b0, b1, b2⟩ := ease_bounds _ hp0 hp1
    refine ⟨rfl, rfl, rfl, b0, b1, ?_, ?_⟩
    · simp only [decide_eq_true_iff]; exact hlt
    · simp only [decide_eq_false_iff_not, b2]
      constructor
      · intro h
        rw [h]
        exact lt_irrefl _
      · intro h
        exact le_antisymm hp1 (not_lt.mp h)
  · rw [stepD_eq pow3 start ts s0 hs]
    have hel : 0 ≤ roundDouble (ts - s0) := roundDouble_nonneg _ ht
    have hr0 : 0 ≤ roundDouble (roundDouble (ts - s0) / 600) :=
      roundDouble_nonneg _ (div_nonneg hel (by norm_num))
    have hp0 : (0 : ℚ) ≤ min 1 (roundDouble (roundDouble (ts - s0) / 600)) :=
      le_min (by norm_num) hr0
    have hp1 : min 1 (roundDouble (roundDouble (ts - s0) / 600)) ≤ 1 := min_le_left _ _
    have hu0 : 0 ≤ roundDouble (1 - min 1 (roundDouble (roundDouble (ts - s0) / 600))) :=
      roundDouble_nonneg _ (by linarith)
    have hu1 : roundDouble (1 - min 1 (roundDouble (roundDouble (ts - s0) / 600))) ≤ 1 :=
      roundDouble_le_one _ (by linarith)
    obtain ⟨hc0, hc1⟩ := hpow _ hu0 hu1
    have hlt : min 1 (roundDouble (roundDouble (ts - s0) / 600)) < 1 ↔
        roundDouble (ts - s0) < 600 := by
      rw [min_lt_iff, quotient_lt_one_iff]
      constructor
      · rintro (h | h)
        · exact absurd h (lt_irrefl _)
        · exact h
      · intro h
        exact Or.inr h
    refine ⟨rfl, rfl, rfl, roundDouble_nonneg _ (by linarith),
      roundDouble_le_one _ (by linarith), ?_, ?_⟩
    · simp only [decide_eq_true_iff]; exact hlt
    · simp only [decide_eq_false_iff_not]
      intro h
      have hp : min 1 (roundDouble (roundDouble (ts - s0) / 600)) = 1 :=
        le_antisymm hp1 (not_lt.mp h)
      rw [hp, sub_self, roundDouble_zero, hpow0, sub_zero, roundDouble_one]

/-- Witness for C5: a frame 300 ms after a run started at time stamp 1000, with the
correctly rounded cube for Math.pow. -/
theorem C5_step_easing_witness :
    (step (some 1000) 1300).eased = 7 / 8 ∧ (step (some 1000) 1300).rescheduled = true ∧
    (stepD roundedCube (some 1000) 1300).rescheduled = true ∧
    (stepD roundedCube (some 1000) 1300).eased ≤ 1 := by
  have h300 : roundDouble (1300 - 1000) = 300 := by
    rw [roundDouble_eval _ (-44) 5277655813324800 (by norm_num) (by norm_num) (by norm_num)
      (by norm_num) (by norm_num)]
    norm_num
  have h := C5_step_easing roundedCube (some 1000) 1300 1000 roundedCube_zero
    roundedCube_bounds (Or.inl ⟨rfl, by norm_num⟩) (by norm_num)
  refine ⟨?_, h.1.2.2.2.2.2.1.mpr (by norm_num), ?_, h.2.2.2.2.2.1⟩
  · rw [h.1.2.2.1]
    norm_num
  · rw [h.2.2.2.2.2.2.1, h.2.2.1, h300]
    norm_num

/-! ## Bars (C7) -/

/-- C7: in drawBar, with a track at least 4 wide, a positive max, a non-negative value
and a progress between 0 and 1, both vertical edges of the fill rectangle lie within
the track; and once the value reaches max, the fill rectangle at full progress is the
track width minus the inset of 4. -/
theorem C7_bar_fill_within_track (x y w : ℚ) (label : String) (value max progress : ℚ)
    (hw : 4 ≤ (drawBar x y w label value max progress).trackW) (hmax : 0 < max)
    (hvalue : 0 ≤ value) (hp0 : 0 ≤ progress) (hp1 : progress ≤ 1) :
    (drawBar x y w label value max progress).fillX =
      (drawBar x y w label value max progress).trackX + 2 ∧
    (drawBar x y w label value max progress).fillW =
      (drawBar x y w label value max progress).fillWidth - 4 ∧
    (drawBar x y w label value max progress).trackX ≤
      (drawBar x y w label value max progress).fillX ∧
    (drawBar x y w label value max progress).fillX ≤
      (drawBar x y w label value max progress).trackX +
        (drawBar x y w label value max progress).trackW ∧
    (drawBar x y w label value max progress).trackX ≤
      (drawBar x y w label value max progress).fillX +
        (drawBar x y w label value max progress).fillW ∧
    (drawBar x y w label value max progress).fillX +
        (drawBar x y w label value max progress).fillW ≤
      (drawBar x y w label value max progress).trackX +
        (drawBar x y w label value max progress).trackW ∧
    (max ≤ value →
      (drawBar x y w label value max 1).fillW =
        (drawBar x y w label value max 1).trackW - 4) := by
  have _ := hvalue
  have _ := hp0
  have _ := hp1
  have hw1 : 4 ≤ w - 50 - 50 := hw
  have hfw : (drawBar x y w label value max progress).fillWidth =
      Max.max 2 (Min.min ((value / max) * (w - 50 - 50) * progress) (w - 50 - 50)) := rfl
  have hlo : (2 : ℚ) ≤ (drawBar x y w label value max progress).fillWidth := by
    rw [hfw]; exact le_max_left _ _
  have hhi : (drawBar x y w label value max progress).fillWidth ≤ w - 50 - 50 := by
    rw [hfw]; exact max_le (by linarith) (min_le_right _ _)
  have hX : (drawBar x y w label value max progress).trackX = x + 50 := rfl
  have hfX : (drawBar x y w label value max progress).fillX = x + 50 + 2 := rfl
  have hfW : (drawBar x y w label value max progress).fillW =
      (drawBar x y w label value max progress).fillWidth - 4 := rfl
  have hW : (drawBar x y w label value max progress).trackW = w - 50 - 50 := rfl
  refine ⟨by rw [hfX, hX], hfW, by rw [hfX, hX]; linarith, by rw [hfX, hX, hW]; linarith,
    by rw [hfX, hX, hfW]; linarith, by rw [hfX, hX, hfW, hW]; linarith, ?_⟩
  intro hge
  have hone : 1 ≤ value / max := (one_le_div hmax).mpr hge
  have hfull : w - 50 - 50 ≤ (value / max) * (w - 50 - 50) * 1 := by
    nlinarith
  show Max.max 2 (Min.min ((value / max) * (w - 50 - 50) * 1) (w - 50 - 50)) - 4 =
    (w - 50 - 50) - 4
  rw [min_eq_right hfull, max_eq_right (by linarith)]

/-- Witness for C7: a bar 228 wide (track 128) whose value 30 exceeds its max 20. -/
theorem C7_bar_fill_within_track_witness :
    (drawBar 0 0 228 "Fat" 30 20 1).fillW = 124 := by
  have h := (C7_bar_fill_within_track 0 0 228 "Fat" 30 20 1 (by norm_num [drawBar])
    (by norm_num) (by norm_num) (by norm_num) (by norm_num)).2.2.2.2.2.2 (by norm_num)
  rw [h]
  norm_num [drawBar]

/-! ## Donut (C6, C9) -/

theorem PI_pos : 0 < PI := by norm_num [PI]

/-- C6 (as stated) fails: with fat100 = -1 and prot100 = 10 at 100 g the macro total is
31 > 0, yet the arcs issued at progress 1 are not the ones of the specification: the
Fat arc has nominal sweep 0, not -9/31 of a turn. -/
theorem C6_counterexample :
    0 < caloriesFromMacros negativeFat ∧
    (drawDonut negativeFat 0 0 160 44 1).tail.map nominal ≠ specDonutArcs negativeFat 1 := by
  have hm : caloriesFromMacros negativeFat = 31 := by
    norm_num [caloriesFromMacros, calFromFat, calFromCarb, calFromProt, fatGrams, carbGrams,
      protGrams, gramsFrom, negativeFat]
  have hf : fatPct negativeFat = -(900 / 31) := by
    simp only [fatPct, pct, hm]
    norm_num [calFromFat, fatGrams, gramsFrom, negativeFat]
  refine ⟨by rw [hm]; norm_num, ?_⟩
  intro h
  have h2 := congrArg (fun l => (l.map (fun t => t.2.2)).head?) h
  simp only [drawDonut, hm, colors, slices, List.zip, List.zipWith, donutLoop, nominal,
    specDonutArcs, hf, List.tail, List.map, List.head?] at h2
  norm_num [deg] at h2
  have := PI_pos
  linarith

/-- C6 (amended): for every input and every progress in [0,1], drawDonut strokes only
the background ring when the macro total is not positive, and otherwise the ring
followed by exactly three arcs coloured Fat, Carbs, Protein, whose nominal start
angles are -90 degrees plus the earlier slices full sweeps max(0, pct/100) * 360
degrees and whose nominal sweeps are max(0, pct/100) * 360 degrees * progress; these
are the arcs of the specification whenever no percentage is negative. -/
theorem C6_donut_arcs (s : Inputs) (x y size thickness progress : ℚ)
    (hp0 : 0 ≤ progress) (hp1 : progress ≤ 1) :
    (caloriesFromMacros s ≤ 0 →
      drawDonut s x y size thickness progress = [backgroundRing x y size thickness]) ∧
    (0 < caloriesFromMacros s →
      (drawDonut s x y size thickness progress).head? =
        some (backgroundRing x y size thickness) ∧
      (drawDonut s x y size thickness progress).tail.map nominal =
        [ ("#ff9f1c", deg (-90), max 0 (fatPct s / 100) * deg 360 * progress),
          ("#06b6d4", deg (-90) + max 0 (fatPct s / 100) * deg 360,
            max 0 (carbPct s / 100) * deg 360 * progress),
          ("#7c3aed",
            deg (-90) + max 0 (fatPct s / 100) * deg 360 + max 0 (carbPct s / 100) * deg 360,
            max 0 (protPct s / 100) * deg 360 * progress) ] ∧
      (0 ≤ fatPct s → 0 ≤ carbPct s → 0 ≤ protPct s →
        (drawDonut s x y size thickness progress).tail.map nominal =
          specDonutArcs s progress)) := by
  have _ := hp0
  have _ := hp1
  have key : 0 < caloriesFromMacros s →
      (drawDonut s x y size thickness progress).tail.map nominal =
        [ ("#ff9f1c", deg (-90), max 0 (fatPct s / 100) * deg 360 * progress),
          ("#06b6d4", deg (-90) + max 0 (fatPct s / 100) * deg 360,
            max 0 (carbPct s / 100) * deg 360 * progress),
          ("#7c3aed",
            deg (-90) + max 0 (fatPct s / 100) * deg 360 + max 0 (carbPct s / 100) * deg 360,
            max 0 (protPct s / 100) * deg 360 * progress) ] := by
    intro hpos
    simp only [drawDonut, if_neg (not_le.mpr hpos), colors, slices, List.zip, List.zipWith,
      donutLoop, nominal, List.tail, List.map, deg]
    refine congrArg₂ List.cons ?_ (congrArg₂ List.cons ?_ (congrArg₂ List.cons ?_ rfl))
    · refine Prod.ext rfl (Prod.ext ?_ ?_) <;> simp only <;> ring
    · refine Prod.ext rfl (Prod.ext ?_ ?_) <;> simp only <;> ring
    · refine Prod.ext rfl (Prod.ext ?_ ?_) <;> simp only <;> ring
  refine ⟨?_, fun hpos => ⟨rfl, key hpos, ?_⟩⟩
  · intro hle
    simp only [drawDonut, if_pos hle]
  · intro hf hc hq
    rw [key hpos]
    simp only [specDonutArcs, max_eq_right (div_nonneg hf (by norm_num : (0 : ℚ) ≤ 100)),
      max_eq_right (div_nonneg hc (by norm_num : (0 : ℚ) ≤ 100)),
      max_eq_right (div_nonneg hq (by norm_num : (0 : ℚ) ≤ 100))]

/-- Witness for C6: the Avocado composition at 100 g, half-way through the animation,
and the all-zero composition. -/
theorem C6_donut_arcs_witness :
    (drawDonut avocado100 0 0 160 44 (1 / 2)).tail.map nominal =
      specDonutArcs avocado100 (1 / 2) ∧
    drawDonut { defaultInputs with fat100 := 0, prot100 := 0 } 0 0 160 44 (1 / 2) =
      [backgroundRing 0 0 160 44] := by
  have hm : caloriesFromMacros avocado100 = 179 := by
    norm_num [caloriesFromMacros, calFromFat, calFromCarb, calFromProt, fatGrams, carbGrams,
      protGrams, gramsFrom, avocado100]
  have h := C6_donut_arcs avocado100 0 0 160 44 (1 / 2) (by norm_num) (by norm_num)
  have h0 := C6_donut_arcs { defaultInputs with fat100 := 0, prot100 := 0 } 0 0 160 44 (1 / 2)
    (by norm_num) (by norm_num)
  refine ⟨(h.2 (by rw [hm]; norm_num)).2.2 ?_ ?_ ?_, h0.1 ?_⟩
  · simp only [fatPct, pct, hm]; norm_num [calFromFat, fatGrams, gramsFrom, avocado100]
  · simp only [carbPct, pct, hm]; norm_num [calFromCarb, carbGrams, gramsFrom, avocado100]
  · simp only [protPct, pct, hm]; norm_num [calFromProt, protGrams, gramsFrom, avocado100]
  · norm_num [caloriesFromMacros, calFromFat, calFromCarb, calFromProt, fatGrams, carbGrams,
      protGrams, gramsFrom, defaultInputs]

/-- C9 (evaluation at the failing input): at the default inputs the macro total is
positive, yet on the finished frame (progress 1) the Carbs arc, whose slice is 0, is
issued with an end angle below its start angle; on the first frame (progress 0) this
is so for all three arcs. -/
theorem C9_inset_inverts_arc :
    0 < caloriesFromMacros defaultInputs ∧
    (draw defaultInputs 400 420 1).donut.tail.map
      (fun a => (a.strokeStyle, decide (a.startAngle ≤ a.endAngle))) =
      [("#ff9f1c", true), ("#06b6d4", false), ("#7c3aed", true)] ∧
    (draw defaultInputs 400 420 0).donut.tail.map
      (fun a => (a.strokeStyle, decide (a.startAngle ≤ a.endAngle))) =
      [("#ff9f1c", false), ("#06b6d4", false), ("#7c3aed", false)] := by
  have hm : caloriesFromMacros defaultInputs = 2346 / 10 := by
    norm_num [caloriesFromMacros, calFromFat, calFromCarb, calFromProt, fatGrams, carbGrams,
      protGrams, gramsFrom, defaultInputs]
  have hf : fatPct defaultInputs = 8100 / 391 := by
    simp only [fatPct, pct, hm]; norm_num [calFromFat, fatGrams, gramsFrom, defaultInputs]
  have hc : carbPct defaultInputs = 0 := by
    simp only [carbPct, pct, hm]; norm_num [calFromCarb, carbGrams, gramsFrom, defaultInputs]
  have hq : protPct defaultInputs = 31000 / 391 := by
    simp only [protPct, pct, hm]; norm_num [calFromProt, protGrams, gramsFrom, defaultInputs]
  refine ⟨by rw [hm]; norm_num, ?_, ?_⟩
  · simp only [draw, drawDonut, hm, colors, slices, List.zip, List.zipWith, donutLoop,
      List.tail, List.map, hf, hc, hq]
    norm_num [PI]
  · simp only [draw, drawDonut, hm, colors, slices, List.zip, List.zipWith, donutLoop,
      List.tail, List.map, hf, hc, hq]
    norm_num [PI]

/-! ## Bars inside draw (C8) -/

theorem trackW_ge (w h : ℚ) : 28 ≤ (layout w h).barW - 50 - 50 := by
  have h1 : (140 : ℚ) ≤ (layout w h).rightWidth := le_max_left _ _
  have h2 : (layout w h).barW = (layout w h).rightWidth - 12 := rfl
  rw [h2]
  linarith

theorem drawBar_unfloored (x y w : ℚ) (label : String) (value mx : ℚ)
    (hw : 0 ≤ w - 50 - 50) (hmx : 0 < mx) (hv : value ≤ mx) :
    (drawBar x y w label value mx 1).unflooredFill = value / mx * (w - 50 - 50) := by
  have h1 : value / mx ≤ 1 := (div_le_one hmx).mpr hv
  have h2 : value / mx * (w - 50 - 50) * 1 ≤ w - 50 - 50 := by nlinarith
  show Min.min (value / mx * (w - 50 - 50) * 1) (w - 50 - 50) = value / mx * (w - 50 - 50)
  rw [min_eq_left h2, mul_one]

/-- C8 (as stated) fails: for the default composition at 1 g the gram values are 0.036,
0 and 0.31, the largest being 0.31, and the Protein bar at full progress is filled to
0.31 of the track, not to the whole track. -/
theorem C8_counterexample :
    0 ≤ fatGrams tinyPortion ∧ 0 ≤ carbGrams tinyPortion ∧ 0 ≤ protGrams tinyPortion ∧
    ¬ (fatGrams tinyPortion = 0 ∧ carbGrams tinyPortion = 0 ∧ protGrams tinyPortion = 0) ∧
    ¬ (∀ b ∈ (draw tinyPortion 400 420 1).bars,
        b.unflooredFill = b.value / largestGram tinyPortion * b.trackW) := by
  have hf : fatGrams tinyPortion = 36 / 1000 := by
    norm_num [fatGrams, gramsFrom, tinyPortion, defaultInputs]
  have hc : carbGrams tinyPortion = 0 := by
    norm_num [carbGrams, gramsFrom, tinyPortion, defaultInputs]
  have hq : protGrams tinyPortion = 31 / 100 := by
    norm_num [protGrams, gramsFrom, tinyPortion, defaultInputs]
  refine ⟨by rw [hf]; norm_num, by rw [hc], by rw [hq]; norm_num, ?_, ?_⟩
  · rw [hf]; norm_num
  · intro hall
    have hb := hall (drawBar (layout 400 420).barX ((layout 400 420).barY + 56)
      (layout 400 420).barW "Protein" (protGrams tinyPortion)
      (max (max (max (fatGrams tinyPortion) (carbGrams tinyPortion)) (protGrams tinyPortion)) 1)
      1) (by simp [draw])
    have hmx : max (max (max (fatGrams tinyPortion) (carbGrams tinyPortion))
        (protGrams tinyPortion)) 1 = 1 := by
      rw [hf, hc, hq]; norm_num
    have hl : largestGram tinyPortion = 31 / 100 := by
      simp only [largestGram, hf, hc, hq]; norm_num
    have hW : (layout 400 420).barW = 128 := by
      norm_num [layout]
    rw [hmx, hl, hq, hW] at hb
    norm_num [drawBar] at hb

/-- C8 (amended): for every input with non-negative gram values that are not all zero,
draw issues the three bars Fat, Carbs, Protein, and at full progress the fill length of
each (before the 2px floor) is its gram value divided by the larger of 1 and the
largest gram value, times the track width; when the largest gram value is at least 1
the bar of a macro attaining it fills the whole track. -/
theorem C8_bar_fill_proportional (s : Inputs) (w h : ℚ)
    (hf : 0 ≤ fatGrams s) (hc : 0 ≤ carbGrams s) (hq : 0 ≤ protGrams s)
    (hnz : ¬ (fatGrams s = 0 ∧ carbGrams s = 0 ∧ protGrams s = 0)) :
    (draw s w h 1).bars.map (fun b => (b.label, b.value)) =
      [("Fat", fatGrams s), ("Carbs", carbGrams s), ("Protein", protGrams s)] ∧
    (draw s w h 1).maxGram = max (largestGram s) 1 ∧
    (∀ b ∈ (draw s w h 1).bars,
      b.unflooredFill = b.value / max (largestGram s) 1 * b.trackW ∧
      b.fillWidth = max 2 b.unflooredFill ∧
      (1 ≤ largestGram s → b.value = largestGram s →
        b.unflooredFill = b.trackW ∧ b.fillWidth = b.trackW)) := by
  have _ := hf
  have _ := hc
  have _ := hq
  have _ := hnz
  have hW := trackW_ge w h
  have hmpos : 0 < max (largestGram s) 1 := lt_of_lt_of_le one_pos (le_max_right _ _)
  have hfm : fatGrams s ≤ max (largestGram s) 1 :=
    le_trans (le_trans (le_max_left _ _) (le_max_left _ _)) (le_max_left _ _)
  have hcm : carbGrams s ≤ max (largestGram s) 1 :=
    le_trans (le_trans (le_max_right _ _) (le_max_left _ _)) (le_max_left _ _)
  have hqm : protGrams s ≤ max (largestGram s) 1 :=
    le_trans (le_max_right _ _) (le_max_left _ _)
  have each : ∀ (y : ℚ) (label : String) (value : ℚ), value ≤ max (largestGram s) 1 →
      (drawBar (layout w h).barX y (layout w h).barW label value (max (largestGram s) 1)
          1).unflooredFill =
        value / max (largestGram s) 1 *
          (drawBar (layout w h).barX y (layout w h).barW label value (max (largestGram s) 1)
            1).trackW ∧
      (drawBar (layout w h).barX y (layout w h).barW label value (max (largestGram s) 1)
          1).fillWidth =
        max 2 (drawBar (layout w h).barX y (layout w h).barW label value
          (max (largestGram s) 1) 1).unflooredFill ∧
      (1 ≤ largestGram s → value = largestGram s →
        (drawBar (layout w h).barX y (layout w h).barW label value (max (largestGram s) 1)
          1).unflooredFill =
        (drawBar (layout w h).barX y (layout w h).barW label value (max (largestGram s) 1)
          1).trackW ∧
        (drawBar (layout w h).barX y (layout w h).barW label value (max (largestGram s) 1)
          1).fillWidth =
        (drawBar (layout w h).barX y (layout w h).barW label value (max (largestGram s) 1)
          1).trackW) := by
    intro y label value hv
    have hu := drawBar_unfloored (layout w h).barX y (layout w h).barW label value
      (max (largestGram s) 1) (by linarith) hmpos hv
    have ht : (drawBar (layout w h).barX y (layout w h).barW label value
        (max (largestGram s) 1) 1).trackW = (layout w h).barW - 50 - 50 := rfl
    have hfw : (drawBar (layout w h).barX y (layout w h).barW label value
        (max (largestGram s) 1) 1).fillWidth =
        max 2 (drawBar (layout w h).barX y (layout w h).barW label value
          (max (largestGram s) 1) 1).unflooredFill := rfl
    refine ⟨by rw [hu, ht], hfw, ?_⟩
    intro h1 hval
    have hu2 : (drawBar (layout w h).barX y (layout w h).barW label value
        (max (largestGram s) 1) 1).unflooredFill = (layout w h).barW - 50 - 50 := by
      rw [hu, max_eq_left h1, hval, div_self (by linarith), one_mul]
    refine ⟨by rw [hu2, ht], ?_⟩
    rw [hfw, hu2, ht]
    exact max_eq_right (by linarith)
  refine ⟨rfl, rfl, ?_⟩
  intro b hb
  have hbars : (draw s w h 1).bars =
      [ drawBar (layout w h).barX ((layout w h).barY + 0) (layout w h).barW "Fat"
          (fatGrams s) (max (largestGram s) 1) 1,
        drawBar (layout w h).barX ((layout w h).barY + 28) (layout w h).barW "Carbs"
          (carbGrams s) (max (largestGram s) 1) 1,
        drawBar (layout w h).barX ((layout w h).barY + 56) (layout w h).barW "Protein"
          (protGrams s) (max (largestGram s) 1) 1 ] := rfl
  rw [hbars] at hb
  simp only [List.mem_cons, List.mem_singleton, List.not_mem_nil, or_false] at hb
  rcases hb with rfl | rfl | rfl
  · exact each _ _ _ hfm
  · exact each _ _ _ hcm
  · exact each _ _ _ hqm

/-- Witness for C8: at the default inputs (5.4 g, 0 g, 46.5 g) on a canvas 400 wide the
Protein bar fills its whole track of 28. -/
theorem C8_bar_fill_proportional_witness :
    (drawBar (layout 400 420).barX ((layout 400 420).barY + 56) (layout 400 420).barW
      "Protein" (protGrams defaultInputs) (max (largestGram defaultInputs) 1)
      1).unflooredFill = 28 := by
  have hf : fatGrams defaultInputs = 54 / 10 := by
    norm_num [fatGrams, gramsFrom, defaultInputs]
  have hc : carbGrams defaultInputs = 0 := by
    norm_num [carbGrams, gramsFrom, defaultInputs]
  have hq : protGrams defaultInputs = 465 / 10 := by
    norm_num [protGrams, gramsFrom, defaultInputs]
  have hl : largestGram defaultInputs = 465 / 10 := by
    simp only [largestGram, hf, hc, hq]; norm_num
  have h := (C8_bar_fill_proportional defaultInputs 400 420 (by rw [hf]; norm_num)
    (by rw [hc]) (by rw [hq]; norm_num) (by rw [hf]; norm_num)).2.2
    (drawBar (layout 400 420).barX ((layout 400 420).barY + 56) (layout 400 420).barW
      "Protein" (protGrams defaultInputs) (max (largestGram defaultInputs) 1) 1)
    (List.mem_cons_of_mem _ (List.mem_cons_of_mem _ (List.mem_singleton.mpr rfl)))
  rw [(h.2.2 (by rw [hl]; norm_num)
    (by show protGrams defaultInputs = largestGram defaultInputs; rw [hl, hq])).1]
  norm_num [drawBar, layout]

/-! ## Layout (C10) -/

/-- C10 (as stated) fails: at the floor width 320 of resizeCanvas the right column ends
at 358 while the card ends at 302. -/
theorem C10_counterexample :
    cssWidth 300 = 320 ∧
    (layout (cssWidth 300) 420).visualsX + (layout (cssWidth 300) 420).rightWidth = 358 ∧
    (layout (cssWidth 300) 420).cardX + (layout (cssWidth 300) 420).cardW = 302 ∧
    ¬ ((layout (cssWidth 300) 420).visualsX + (layout (cssWidth 300) 420).rightWidth ≤
        (layout (cssWidth 300) 420).cardX + (layout (cssWidth 300) 420).cardW) := by
  have hw : cssWidth 300 = 320 := by norm_num [cssWidth]
  rw [hw]
  have h1 : (layout 320 420).visualsX + (layout 320 420).rightWidth = 358 := by
    norm_num [layout]
  have h2 : (layout 320 420).cardX + (layout 320 420).cardW = 302 := by
    norm_num [layout]
  refine ⟨rfl, h1, h2, ?_⟩
  rw [h1, h2]
  norm_num

/-- C10 (amended): for every canvas CSS width w >= 320, with cardX = 18, cardW = w - 36,
leftWidth = min(420, max(180, 0.58*cardW)), rightWidth = max(140, cardW - leftWidth - 36)
and visualsX = cardX + leftWidth + 20, the right column stays inside the card
(visualsX + rightWidth <= cardX + cardW) exactly when w >= 8756/21 (about 416.96). -/
theorem C10_right_column_inside_card (w h : ℚ) (hw : 320 ≤ w) :
    (layout w h).cardX = 18 ∧ (layout w h).cardW = w - 36 ∧
    (layout w h).leftWidth = min 420 (max 180 (58 / 100 * (layout w h).cardW)) ∧
    (layout w h).rightWidth =
      max 140 ((layout w h).cardW - (layout w h).leftWidth - 36) ∧
    (layout w h).visualsX = (layout w h).cardX + (layout w h).leftWidth + 20 ∧
    ((layout w h).visualsX + (layout w h).rightWidth ≤
        (layout w h).cardX + (layout w h).cardW ↔ 8756 / 21 ≤ w) := by
  have _ := hw
  have hcw : (layout w h).cardW = w - 36 := by
    simp only [layout]; ring
  have hlw : (layout w h).leftWidth = min 420 (max 180 (58 / 100 * (layout w h).cardW)) := by
    simp only [layout]; ring_nf
  refine ⟨rfl, hcw, hlw, rfl, rfl, ?_⟩
  simp only [layout, min_def, max_def]
  split_ifs <;> constructor <;> intro hx <;> linarith

/-- Witness for C10: a canvas 420 wide keeps the right column inside the card. -/
theorem C10_right_column_inside_card_witness :
    (layout 420 420).visualsX + (layout 420 420).rightWidth ≤
      (layout 420 420).cardX + (layout 420 420).cardW :=
  (C10_right_column_inside_card 420 420 (by norm_num)).2.2.2.2.2.mpr (by norm_num)

end CalorieCanvas
